import Mathlib

/-!
# Verification of the BookStack sync client

A shallow embedding of the client-side core of the `bookstack-sync-react`
repository: the batch operation runners (`handleSync`,
`confirmDeleteMultipleBooks`), the sync-status classification and the
filter-label counts (`matchesSyncStatus`, `inDestinationCount`,
`syncingCount`, `notSyncedCount`), the pagination (`totalPages`,
`currentBooks`), and the Remote Gateway error normalization
(`SpringBootApi.handleError`, `SpringBootApi.getConfig`).

React state is modelled by explicit state passing on an `AppState` record;
the per-identifier progress objects (`{[key: number]: string}`) are modelled
as association lists with unique keys; a single-item network operation is
modelled by a boolean oracle `ok : Nat → Bool` telling whether the call for a
given identifier resolves or rejects.
-/

namespace BookStackSync

/-- JavaScript truthiness of a string value: the empty string is falsy,
every other string is truthy. -/
def truthy (s : String) : Bool := s != ""

/-- An entity (`Book` in `bookstackApi.ts`).  The scalar fields are carried;
the nested `created_by`/`updated_by`/`contents`/`tags` collections are never
consulted by any of the functions verified here and are omitted. -/
structure Book where
  id : Nat
  name : String
  slug : String
  description : String
  created_at : String
  updated_at : String
deriving Repr, DecidableEq

/-- A per-identifier progress object (`syncProgress` / `deleteStatus`), a JS
object `{[key: number]: string}` modelled as an association list whose keys
are unique. -/
abbrev StatusMap := List (Nat × String)

/-- Property read `map[k]` on the progress object: the value at the unique
entry with key `k`, if any (`undefined` is `none`). -/
def lookupStatus : StatusMap → Nat → Option String
  | [], _ => none
  | p :: rest, k => if p.1 == k then some p.2 else lookupStatus rest k

/-- The update `{...prev, [k]: v}` (equivalently `acc[k] = v`): if the key is
present its entry is replaced in place, otherwise a new entry is added. -/
def insertStatus (m : StatusMap) (k : Nat) (v : String) : StatusMap :=
  if m.any (fun p => p.1 == k) then
    m.map (fun p => if p.1 == k then (k, v) else p)
  else
    m ++ [(k, v)]

/-- The keys of the progress object. -/
def statusKeys (m : StatusMap) : List Nat := m.map (fun p => p.1)

/-- `ids.reduce((acc, id) => { acc[id] = v; return acc }, {})` — the map that
initializes every selected identifier's status (to `"Pending"` in both
runners). -/
def initialStatus (ids : List Nat) (v : String) : StatusMap :=
  ids.foldl (fun acc id => insertStatus acc id v) []

/-- `destinationBooks.some(destBook => destBook.name === book.name)` — the
name-based correlation used by the sync-status filter and the counts. -/
def isInDestination (destinationBooks : List Book) (book : Book) : Bool :=
  destinationBooks.any (fun destBook => destBook.name == book.name)

/-- `syncProgress[book.id] && syncProgress[book.id] !== 'completed'` — the
"sync operation in progress" check of `matchesSyncStatus` (truthiness of the
property read, then inequality with the lowercase literal `'completed'`). -/
def isSyncing (syncProgress : StatusMap) (book : Book) : Bool :=
  match lookupStatus syncProgress book.id with
  | some s => truthy s && s != "completed"
  | none => false

/-- `matchesSyncStatus` from the App component: the sync-status filter
predicate of the view derivation pipeline. -/
def matchesSyncStatus (syncStatus : String) (destinationBooks : List Book)
    (syncProgress : StatusMap) (book : Book) : Bool :=
  if syncStatus == "all" then true
  else
    let inDest := isInDestination destinationBooks book
    let syncing := isSyncing syncProgress book
    if syncStatus == "in-destination" && inDest then true
    else if syncStatus == "syncing" && syncing then true
    else if syncStatus == "not-synced" && !inDest && !syncing then true
    else false

/-- `inDestinationCount`: books with a destination book of identical name,
counted over the unfiltered source list. -/
def inDestinationCount (books destinationBooks : List Book) : Nat :=
  (books.filter (fun book =>
    destinationBooks.any (fun destBook => destBook.name == book.name))).length

/-- `syncingCount`: `syncProgress[book.id] && syncProgress[book.id] !==
'completed' && !destinationBooks.some(destBook => destBook.name ===
book.name)`, counted over the unfiltered source list. -/
def syncingCount (books destinationBooks : List Book)
    (syncProgress : StatusMap) : Nat :=
  (books.filter (fun book =>
    (match lookupStatus syncProgress book.id with
     | some s => truthy s && s != "completed"
     | none => false)
    && !(destinationBooks.any (fun destBook => destBook.name == book.name)))).length

/-- `notSyncedCount`: `!destinationBooks.some(...) && (!syncProgress[book.id]
|| syncProgress[book.id] === 'Failed')`, counted over the unfiltered source
list. -/
def notSyncedCount (books destinationBooks : List Book)
    (syncProgress : StatusMap) : Nat :=
  (books.filter (fun book =>
    !(destinationBooks.any (fun destBook => destBook.name == book.name))
    && (match lookupStatus syncProgress book.id with
        | some s => !truthy s || s == "Failed"
        | none => true))).length

/-- `ITEMS_PER_PAGE = 15`. -/
def ITEMS_PER_PAGE : Nat := 15

/-- `Math.max(1, Math.ceil(filteredBooks.length / ITEMS_PER_PAGE))`.  For a
natural `n`, `Math.ceil` of the exact quotient `n / 15` is the rounded-up
natural division `(n + 14) / 15` (JS number arithmetic is exact at these
magnitudes). -/
def totalPages (n : Nat) : Nat :=
  max 1 ((n + ITEMS_PER_PAGE - 1) / ITEMS_PER_PAGE)

/-- `filteredBooks.slice(startIndex, startIndex + ITEMS_PER_PAGE)` with
`startIndex = (currentPage - 1) * ITEMS_PER_PAGE`. -/
def currentBooks (filteredBooks : List Book) (currentPage : Nat) : List Book :=
  (filteredBooks.drop ((currentPage - 1) * ITEMS_PER_PAGE)).take ITEMS_PER_PAGE

/-- The success banner written by `handleSync` after the batch. -/
def syncSuccessMessage (completedCount failedCount : Nat) : String :=
  if failedCount == 0 then
    "All " ++ toString completedCount ++ " books synchronized successfully!"
  else
    "Synchronization completed: " ++ toString completedCount ++ " succeeded, "
      ++ toString failedCount ++ " failed."

/-- The success banner written by `confirmDeleteMultipleBooks` after the batch. -/
def deleteSuccessMessage (completedCount failedCount : Nat) : String :=
  if failedCount == 0 then
    "All " ++ toString completedCount ++ " books deleted successfully!"
  else
    "Deletion completed: " ++ toString completedCount ++ " succeeded, "
      ++ toString failedCount ++ " failed."

/-- The slice of App component state read or written by the handlers
verified here (modal/visual fields are untouched by them and omitted). -/
structure AppState where
  books : List Book
  destinationBooks : List Book
  selectedBookIds : List Nat
  selectedDestinationBookIds : List Nat
  syncProgress : StatusMap
  deleteStatus : StatusMap
  error : Option String
  success : Option String
  loading : Bool
deriving Repr, DecidableEq

/-- One iteration of the `for (const bookId of selectedBookIds)` loop of
`handleSync`, threading `(syncProgress, completedCount, failedCount)`: look
the id up in `books`; when found, write `'Syncing...'`, invoke the operation,
then write `'Completed'` or `'Failed'` and bump the matching tally; when not
found, do nothing. -/
def syncStep (books : List Book) (ok : Nat → Bool)
    (acc : StatusMap × Nat × Nat) (bookId : Nat) : StatusMap × Nat × Nat :=
  match books.find? (fun b => b.id == bookId) with
  | some _ =>
    let m := insertStatus acc.1 bookId "Syncing..."
    if ok bookId then (insertStatus m bookId "Completed", acc.2.1 + 1, acc.2.2)
    else (insertStatus m bookId "Failed", acc.2.1, acc.2.2 + 1)
  | none => acc

/-- `handleSync` from the App component.  An empty selection sets the error
banner and returns before any status mutation; otherwise every selected id is
initialized to `'Pending'`, the loop runs, and the banner, progress map and
loading flag are updated. -/
def handleSync (ok : Nat → Bool) (s : AppState) : AppState :=
  if s.selectedBookIds.length == 0 then
    { s with error := some "Please select at least one book to sync" }
  else
    let r := s.selectedBookIds.foldl (syncStep s.books ok)
      (initialStatus s.selectedBookIds "Pending", 0, 0)
    { s with
      syncProgress := r.1,
      success := some (syncSuccessMessage r.2.1 r.2.2),
      error := none,
      loading := false }

/-- One iteration of the `for (const bookId of selectedDestinationBookIds)`
loop of `confirmDeleteMultipleBooks` (statuses `'Deleting...'`, `'Deleted'`,
`'Failed'`). -/
def deleteStep (destinationBooks : List Book) (ok : Nat → Bool)
    (acc : StatusMap × Nat × Nat) (bookId : Nat) : StatusMap × Nat × Nat :=
  match destinationBooks.find? (fun b => b.id == bookId) with
  | some _ =>
    let m := insertStatus acc.1 bookId "Deleting..."
    if ok bookId then (insertStatus m bookId "Deleted", acc.2.1 + 1, acc.2.2)
    else (insertStatus m bookId "Failed", acc.2.1, acc.2.2 + 1)
  | none => acc

/-- `confirmDeleteMultipleBooks` from the App component.  Note the removal
filter: `prev.filter(book => !selectedDestinationBookIds.includes(book.id) ||
deleteStatus[book.id] === 'Failed')` reads the `deleteStatus` variable
captured by the closure — the state value from before the call
(`s.deleteStatus`) — not the map produced by the loop's functional updates. -/
def confirmDeleteMultipleBooks (ok : Nat → Bool) (s : AppState) : AppState :=
  if s.selectedDestinationBookIds.length == 0 then s
  else
    let r := s.selectedDestinationBookIds.foldl (deleteStep s.destinationBooks ok)
      (initialStatus s.selectedDestinationBookIds "Pending", 0, 0)
    let remaining := s.destinationBooks.filter (fun book =>
      !(s.selectedDestinationBookIds.contains book.id)
      || lookupStatus s.deleteStatus book.id == some "Failed")
    { s with
      deleteStatus := r.1,
      destinationBooks := remaining,
      selectedDestinationBookIds := [],
      success := some (deleteSuccessMessage r.2.1 r.2.2),
      error := none,
      loading := false }

/-- `BookStackConfigDTO` from `ConfigForm`: the six credential fields held in
session storage (blank fields are empty strings, as in the form's initial
state). -/
structure BookStackConfigDTO where
  sourceBaseUrl : String
  sourceTokenId : String
  sourceTokenSecret : String
  destinationBaseUrl : String
  destinationTokenId : String
  destinationTokenSecret : String
deriving Repr, DecidableEq

namespace SpringBootApi

/-- The shape of an error response body (`ApiErrorResponse` in
`springBootApi.ts`): each of `message`, `error`, `status` optional. -/
structure ApiErrorResponse where
  message : Option String
  error : Option String
  status : Option String
deriving Repr, DecidableEq

/-- An axios transport failure as `handleError` distinguishes them:
the server responded with a failure status (carrying a parsed body and the
axios `message`), or the request was sent and no response arrived, or the
request could not be constructed/sent. -/
inductive AxiosFailure where
  | response (status : Nat) (data : ApiErrorResponse) (message : String)
  | noResponse (message : String)
  | requestSetup (message : String)
deriving Repr, DecidableEq

/-- JS `field || fallback` on an optional string field of the response body:
an absent or empty (falsy) field falls through to the fallback. -/
def jsOrElse (field : Option String) (fallback : String) : String :=
  match field with
  | some s => if truthy s then s else fallback
  | none => fallback

/-- `handleError` from `springBootApi.ts`, restricted to axios (transport)
errors; returns the message of the `Error` it throws.  For a response error
the message is `data?.message || data?.error || data?.status ||
axiosError.message` prefixed by the status. -/
def handleError (e : AxiosFailure) : String :=
  match e with
  | .response status data message =>
    let errorMessage := jsOrElse data.message
      (jsOrElse data.error (jsOrElse data.status message))
    "API Error: " ++ toString status ++ " - " ++ errorMessage
  | .noResponse _ => "No response received from server"
  | .requestSetup message => "Request Error: " ++ message

/-- The fallback chain exactly as claim C8 words it: the body's `message`
field if present, otherwise its `error` field, otherwise its `status` field,
otherwise the generic transport message — "present" taken literally, with no
emptiness check.  Written from the spec for comparison with `handleError`. -/
def specPresentFallback (data : ApiErrorResponse) (transportMessage : String) : String :=
  match data.message with
  | some m => m
  | none =>
    match data.error with
    | some e => e
    | none =>
      match data.status with
      | some st => st
      | none => transportMessage

/-- `getConfig` from `springBootApi.ts`: read the session-storage entry and
`JSON.parse` it inside a `try`, returning `null` when nothing is stored (or
the stored string is falsy) and `null` from the `catch` when parsing throws.
The storage content is the `stored` argument; `JSON.parse` is the `parse`
argument, throwing modelled as `Except.error`. -/
def getConfig (stored : Option String)
    (parse : String → Except String BookStackConfigDTO) : Option BookStackConfigDTO :=
  match stored with
  | none => none
  | some s =>
    if truthy s then
      match parse s with
      | .ok cfg => some cfg
      | .error _ => none
    else none

/-- The failures the destination-scoped gateway methods raise before issuing
any request. -/
inductive GatewayFailure where
  | configurationMissing
  | destinationCredentialsIncomplete
deriving Repr, DecidableEq

/-- The destination-credential headers attached to a destination-scoped
request (`X-Destination-Url`, `X-Destination-Token`,
`X-Destination-Token-Id`). -/
structure DestroyRequest where
  destinationUrl : String
  destinationToken : String
  destinationTokenId : String
deriving Repr, DecidableEq

/-- Modelled from the spec: the bulk-destroy operation of the Remote Gateway.
`handleDestroy` in the App component invokes `springBootApi.destroy()`, but
no service file among the sources defines that method — only its caller is
present.  Per the spec, `bulkDestroy()` "requires destination credentials"
and "deletes all destination entities in one call"; the credential check
follows the spec's invariant (and the sibling destination-scoped method
`deleteDestinationBook`): no configuration stored fails with
`ConfigurationMissing`, a blank destination field fails with
`CredentialsIncomplete` before any request is issued, and otherwise the
deletion request is issued with the destination headers and succeeds. -/
def destroy (config : Option BookStackConfigDTO) :
    Except GatewayFailure DestroyRequest :=
  match config with
  | none => .error .configurationMissing
  | some c =>
    if !truthy c.destinationBaseUrl || !truthy c.destinationTokenSecret
        || !truthy c.destinationTokenId then
      .error .destinationCredentialsIncomplete
    else
      .ok { destinationUrl := c.destinationBaseUrl,
            destinationToken := c.destinationTokenSecret,
            destinationTokenId := c.destinationTokenId }

end SpringBootApi

/-! ### Concrete inputs used by counterexamples and witnesses -/

/-- A book with a given id and name and blank remaining fields. -/
def mkBook (id : Nat) (name : String) : Book :=
  { id := id, name := name, slug := "", description := "",
    created_at := "", updated_at := "" }

/-- An app state with given lists and empty banners/maps. -/
def mkState (books destinationBooks : List Book)
    (selectedBookIds selectedDestinationBookIds : List Nat)
    (syncProgress deleteStatus : StatusMap) : AppState :=
  { books := books, destinationBooks := destinationBooks,
    selectedBookIds := selectedBookIds,
    selectedDestinationBookIds := selectedDestinationBookIds,
    syncProgress := syncProgress, deleteStatus := deleteStatus,
    error := none, success := none, loading := false }

/-- Sixteen distinct books, for the pagination witness. -/
def sixteenBooks : List Book :=
  (List.range 16).map (fun i => mkBook i (toString i))

/-- A parse oracle that accepts exactly one stored string, for witnesses. -/
def parseOnly (good : String) (cfg : BookStackConfigDTO) :
    String → Except String BookStackConfigDTO :=
  fun s => if s == good then .ok cfg else .error "Unexpected token"

/-- A fully blank credential configuration. -/
def blankConfig : BookStackConfigDTO :=
  { sourceBaseUrl := "", sourceTokenId := "", sourceTokenSecret := "",
    destinationBaseUrl := "", destinationTokenId := "", destinationTokenSecret := "" }

/-- A fully populated credential configuration. -/
def fullConfig : BookStackConfigDTO :=
  { sourceBaseUrl := "http://src", sourceTokenId := "sid", sourceTokenSecret := "ss",
    destinationBaseUrl := "http://dst", destinationTokenId := "did",
    destinationTokenSecret := "ds" }

/-! ## Association-list lemmas for the progress maps -/

theorem any_key_iff (m : StatusMap) (k : Nat) :
    m.any (fun p => p.1 == k) = true ↔ k ∈ statusKeys m := by
  simp [statusKeys, List.any_eq_true, List.mem_map]

theorem not_any_key (m : StatusMap) (k : Nat)
    (h : m.any (fun p => p.1 == k) = false) :
    ¬(m.any (fun p => p.1 == k) = true) := by
  rw [h]
  simp

theorem lookupStatus_map_replace_self (m : StatusMap) (k : Nat) (v : String)
    (h : m.any (fun p => p.1 == k) = true) :
    lookupStatus (m.map (fun p => if p.1 == k then (k, v) else p)) k = some v := by
  induction m with
  | nil => simp at h
  | cons p rest ih =>
    simp only [List.map_cons]
    by_cases hp : (p.1 == k) = true
    · rw [if_pos hp]
      simp [lookupStatus]
    · rw [if_neg hp]
      have hrest : rest.any (fun q => q.1 == k) = true := by
        simpa [hp] using h
      simp only [lookupStatus]
      rw [if_neg hp]
      exact ih hrest

theorem lookupStatus_map_replace_ne (m : StatusMap) (k j : Nat) (v : String)
    (hne : j ≠ k) :
    lookupStatus (m.map (fun p => if p.1 == k then (k, v) else p)) j =
      lookupStatus m j := by
  induction m with
  | nil => rfl
  | cons p rest ih =>
    simp only [List.map_cons]
    by_cases hp : (p.1 == k) = true
    · have hpk : p.1 = k := by simpa using hp
      have hj : ¬((k : Nat) == j) = true := by
        simp only [beq_iff_eq]
        exact fun h => hne h.symm
      have hj' : ¬(p.1 == j) = true := by
        rw [hpk]
        exact hj
      rw [if_pos hp]
      simp only [lookupStatus]
      rw [if_neg hj, if_neg hj']
      exact ih
    · rw [if_neg hp]
      by_cases hq : (p.1 == j) = true
      · simp only [lookupStatus]
        rw [if_pos hq, if_pos hq]
      · simp only [lookupStatus]
        rw [if_neg hq, if_neg hq]
        exact ih

theorem lookupStatus_append_single_self (m : StatusMap) (k : Nat) (v : String)
    (h : m.any (fun p => p.1 == k) = false) :
    lookupStatus (m ++ [(k, v)]) k = some v := by
  induction m with
  | nil => simp [lookupStatus]
  | cons p rest ih =>
    have hp : ¬(p.1 == k) = true := by
      intro hc
      simp [hc] at h
    have hrest : rest.any (fun q => q.1 == k) = false := by
      cases hrc : rest.any (fun q => q.1 == k) with
      | false => rfl
      | true => simp [hrc] at h
    rw [List.cons_append]
    simp only [lookupStatus]
    rw [if_neg hp]
    exact ih hrest

theorem lookupStatus_append_single_ne (m : StatusMap) (k j : Nat) (v : String)
    (hne : j ≠ k) :
    lookupStatus (m ++ [(k, v)]) j = lookupStatus m j := by
  induction m with
  | nil =>
    have hk : ¬((k : Nat) == j) = true := by
      simp only [beq_iff_eq]
      exact fun h => hne h.symm
    simp only [List.nil_append, lookupStatus]
    rw [if_neg hk]
  | cons p rest ih =>
    rw [List.cons_append]
    by_cases hq : (p.1 == j) = true
    · simp only [lookupStatus]
      rw [if_pos hq, if_pos hq]
    · simp only [lookupStatus]
      rw [if_neg hq, if_neg hq]
      exact ih

theorem lookupStatus_insert_self (m : StatusMap) (k : Nat) (v : String) :
    lookupStatus (insertStatus m k v) k = some v := by
  unfold insertStatus
  by_cases h : m.any (fun p => p.1 == k) = true
  · rw [if_pos h]
    exact lookupStatus_map_replace_self m k v h
  · rw [if_neg h]
    have hf : m.any (fun p => p.1 == k) = false := by
      cases hb : m.any (fun p => p.1 == k) with
      | false => rfl
      | true => exact absurd hb h
    exact lookupStatus_append_single_self m k v hf

theorem lookupStatus_insert_ne (m : StatusMap) (k j : Nat) (v : String)
    (hne : j ≠ k) :
    lookupStatus (insertStatus m k v) j = lookupStatus m j := by
  unfold insertStatus
  by_cases h : m.any (fun p => p.1 == k) = true
  · rw [if_pos h]
    exact lookupStatus_map_replace_ne m k j v hne
  · rw [if_neg h]
    exact lookupStatus_append_single_ne m k j v hne

theorem statusKeys_insert_of_mem (m : StatusMap) (k : Nat) (v : String)
    (h : m.any (fun p => p.1 == k) = true) :
    statusKeys (insertStatus m k v) = statusKeys m := by
  unfold insertStatus
  rw [if_pos h]
  unfold statusKeys
  rw [List.map_map]
  refine List.map_congr_left ?_
  intro p _
  by_cases hp : (p.1 == k) = true
  · have : p.1 = k := by simpa using hp
    simp [Function.comp, hp, this]
  · simp [Function.comp, hp]

theorem statusKeys_insert_of_not_mem (m : StatusMap) (k : Nat) (v : String)
    (h : m.any (fun p => p.1 == k) = false) :
    statusKeys (insertStatus m k v) = statusKeys m ++ [k] := by
  unfold insertStatus
  rw [if_neg (not_any_key m k h)]
  simp [statusKeys]

theorem mem_statusKeys_insert (m : StatusMap) (k j : Nat) (v : String) :
    j ∈ statusKeys (insertStatus m k v) ↔ j = k ∨ j ∈ statusKeys m := by
  cases h : m.any (fun p => p.1 == k) with
  | true =>
    rw [statusKeys_insert_of_mem m k v h]
    constructor
    · exact Or.inr
    · intro hjk
      rcases hjk with heq | hm
      · rw [heq]
        exact (any_key_iff m k).mp h
      · exact hm
  | false =>
    rw [statusKeys_insert_of_not_mem m k v h]
    simp [or_comm]

theorem nodup_statusKeys_insert (m : StatusMap) (k : Nat) (v : String)
    (h : (statusKeys m).Nodup) : (statusKeys (insertStatus m k v)).Nodup := by
  cases hm : m.any (fun p => p.1 == k) with
  | true => rwa [statusKeys_insert_of_mem m k v hm]
  | false =>
    rw [statusKeys_insert_of_not_mem m k v hm]
    have hk : k ∉ statusKeys m := fun hc => by
      rw [(any_key_iff m k).mpr hc] at hm
      simp at hm
    simp [List.nodup_append, h, hk]

theorem entry_count_eq_key_count (m : StatusMap) (j : Nat) :
    (m.filter (fun p => p.1 == j)).length = (statusKeys m).count j := by
  unfold statusKeys
  rw [List.count, List.countP_map, ← List.countP_eq_length_filter]
  rfl

theorem entry_count_of_nodup (m : StatusMap) (j : Nat)
    (hnd : (statusKeys m).Nodup) (hmem : j ∈ statusKeys m) :
    (m.filter (fun p => p.1 == j)).length = 1 := by
  rw [entry_count_eq_key_count]
  exact List.count_eq_one_of_mem hnd hmem

/-! ## The initializing reduce -/

theorem lookupStatus_initFold (v : String) :
    ∀ (ids : List Nat) (m : StatusMap) (j : Nat),
      lookupStatus (ids.foldl (fun acc id => insertStatus acc id v) m) j =
        if j ∈ ids then some v else lookupStatus m j := by
  intro ids
  induction ids with
  | nil =>
    intro m j
    simp
  | cons i rest ih =>
    intro m j
    rw [List.foldl_cons, ih]
    by_cases hj : j ∈ rest
    · rw [if_pos hj, if_pos (List.mem_cons.mpr (Or.inr hj))]
    · rw [if_neg hj]
      by_cases hji : j = i
      · subst hji
        rw [lookupStatus_insert_self, if_pos (List.mem_cons_self j rest)]
      · rw [lookupStatus_insert_ne m i j v hji,
          if_neg (fun hc => (List.mem_cons.mp hc).elim hji hj)]

theorem mem_statusKeys_initFold (v : String) :
    ∀ (ids : List Nat) (m : StatusMap) (j : Nat),
      j ∈ statusKeys (ids.foldl (fun acc id => insertStatus acc id v) m) ↔
        j ∈ ids ∨ j ∈ statusKeys m := by
  intro ids
  induction ids with
  | nil =>
    intro m j
    simp
  | cons i rest ih =>
    intro m j
    rw [List.foldl_cons, ih, mem_statusKeys_insert]
    simp [List.mem_cons]
    tauto

theorem nodup_statusKeys_initFold (v : String) :
    ∀ (ids : List Nat) (m : StatusMap), (statusKeys m).Nodup →
      (statusKeys (ids.foldl (fun acc id => insertStatus acc id v) m)).Nodup := by
  intro ids
  induction ids with
  | nil =>
    intro m h
    simpa using h
  | cons i rest ih =>
    intro m h
    rw [List.foldl_cons]
    exact ih _ (nodup_statusKeys_insert m i v h)

theorem lookupStatus_initialStatus (ids : List Nat) (v : String) (j : Nat) :
    lookupStatus (initialStatus ids v) j = if j ∈ ids then some v else none := by
  unfold initialStatus
  rw [lookupStatus_initFold]
  by_cases hj : j ∈ ids
  · rw [if_pos hj, if_pos hj]
  · rw [if_neg hj, if_neg hj]
    rfl

theorem mem_statusKeys_initialStatus (ids : List Nat) (v : String) (j : Nat) :
    j ∈ statusKeys (initialStatus ids v) ↔ j ∈ ids := by
  unfold initialStatus
  rw [mem_statusKeys_initFold]
  simp [statusKeys]

theorem nodup_statusKeys_initialStatus (ids : List Nat) (v : String) :
    (statusKeys (initialStatus ids v)).Nodup := by
  unfold initialStatus
  exact nodup_statusKeys_initFold v ids [] (by simp [statusKeys])

/-! ## The sync batch loop -/

theorem syncStep_found (books : List Book) (ok : Nat → Bool)
    (acc : StatusMap × Nat × Nat) (bookId : Nat) (b : Book)
    (hfind : books.find? (fun b => b.id == bookId) = some b) :
    (syncStep books ok acc bookId).1 =
      insertStatus (insertStatus acc.1 bookId "Syncing...") bookId
        (if ok bookId then "Completed" else "Failed") := by
  unfold syncStep
  rw [hfind]
  by_cases hok : ok bookId = true
  · simp [hok]
  · simp [hok]

theorem syncStep_not_found (books : List Book) (ok : Nat → Bool)
    (acc : StatusMap × Nat × Nat) (bookId : Nat)
    (hfind : books.find? (fun b => b.id == bookId) = none) :
    syncStep books ok acc bookId = acc := by
  unfold syncStep
  rw [hfind]

theorem any_id_of_find?_some (books : List Book) (j : Nat) (b : Book)
    (hfind : books.find? (fun b => b.id == j) = some b) :
    books.any (fun b => b.id == j) = true := by
  have h1 : (b.id == j) = true :=
    List.find?_some (p := fun (x : Book) => x.id == j) hfind
  exact List.any_eq_true.mpr ⟨b, List.mem_of_find?_eq_some hfind, h1⟩

theorem not_any_id_of_find?_none (books : List Book) (j : Nat)
    (hfind : books.find? (fun b => b.id == j) = none) :
    ¬(books.any (fun b => b.id == j) = true) := by
  intro hc
  rcases List.any_eq_true.mp hc with ⟨b, hmem, hb⟩
  exact absurd (List.find?_eq_none.mp hfind b hmem) (by simp [hb])

theorem lookupStatus_syncFold (books : List Book) (ok : Nat → Bool) :
    ∀ (ids : List Nat) (acc : StatusMap × Nat × Nat) (j : Nat),
      lookupStatus (ids.foldl (syncStep books ok) acc).1 j =
        if j ∈ ids ∧ books.any (fun b => b.id == j) = true then
          some (if ok j then "Completed" else "Failed")
        else lookupStatus acc.1 j := by
  intro ids
  induction ids with
  | nil =>
    intro acc j
    simp
  | cons i rest ih =>
    intro acc j
    rw [List.foldl_cons, ih]
    by_cases hj : j ∈ rest ∧ books.any (fun b => b.id == j) = true
    · have hcons : j ∈ i :: rest ∧ books.any (fun b => b.id == j) = true :=
        And.intro (List.mem_cons.mpr (Or.inr hj.1)) hj.2
      rw [if_pos hj, if_pos hcons]
    · rw [if_neg hj]
      by_cases hji : j = i
      · subst hji
        cases hfind : books.find? (fun b => b.id == j) with
        | some b =>
          have hany := any_id_of_find?_some books j b hfind
          have hcons : j ∈ j :: rest ∧ books.any (fun b => b.id == j) = true :=
            And.intro (List.mem_cons_self j rest) hany
          rw [syncStep_found books ok acc j b hfind, lookupStatus_insert_self,
            if_pos hcons]
        | none =>
          have hncons : ¬(j ∈ j :: rest ∧ books.any (fun b => b.id == j) = true) :=
            fun hc => not_any_id_of_find?_none books j hfind hc.2
          rw [syncStep_not_found books ok acc j hfind, if_neg hncons]
      · have hstep : lookupStatus (syncStep books ok acc i).1 j =
            lookupStatus acc.1 j := by
          cases hfind : books.find? (fun b => b.id == i) with
          | some b =>
            rw [syncStep_found books ok acc i b hfind,
              lookupStatus_insert_ne _ i j _ hji, lookupStatus_insert_ne _ i j _ hji]
          | none =>
            rw [syncStep_not_found books ok acc i hfind]
        have hncons : ¬(j ∈ i :: rest ∧ books.any (fun b => b.id == j) = true) :=
          fun hc => hj (And.intro ((List.mem_cons.mp hc.1).resolve_left hji) hc.2)
        rw [hstep, if_neg hncons]

theorem statusKeys_syncFold (books : List Book) (ok : Nat → Bool) :
    ∀ (ids : List Nat) (acc : StatusMap × Nat × Nat),
      (∀ i ∈ ids, i ∈ statusKeys acc.1) →
      statusKeys (ids.foldl (syncStep books ok) acc).1 = statusKeys acc.1 := by
  intro ids
  induction ids with
  | nil =>
    intro acc _
    rfl
  | cons i rest ih =>
    intro acc hsub
    rw [List.foldl_cons]
    have hstep : statusKeys (syncStep books ok acc i).1 = statusKeys acc.1 := by
      cases hfind : books.find? (fun b => b.id == i) with
      | some b =>
        have hi : i ∈ statusKeys acc.1 := hsub i (List.mem_cons_self i rest)
        have hany1 : acc.1.any (fun p => p.1 == i) = true := (any_key_iff _ i).mpr hi
        have hi2 : i ∈ statusKeys (insertStatus acc.1 i "Syncing...") :=
          (mem_statusKeys_insert acc.1 i i "Syncing...").mpr (Or.inl rfl)
        have hany2 := (any_key_iff _ i).mpr hi2
        rw [syncStep_found books ok acc i b hfind,
          statusKeys_insert_of_mem _ i _ hany2, statusKeys_insert_of_mem _ i _ hany1]
      | none =>
        rw [syncStep_not_found books ok acc i hfind]
    have hsub' : ∀ x ∈ rest, x ∈ statusKeys (syncStep books ok acc i).1 := by
      intro x hx
      rw [hstep]
      exact hsub x (List.mem_cons.mpr (Or.inr hx))
    rw [ih _ hsub', hstep]

theorem handleSync_progress_eq (ok : Nat → Bool) (s : AppState)
    (h : s.selectedBookIds ≠ []) :
    (handleSync ok s).syncProgress =
      (s.selectedBookIds.foldl (syncStep s.books ok)
        (initialStatus s.selectedBookIds "Pending", 0, 0)).1 := by
  unfold handleSync
  rw [if_neg (by simpa [List.length_eq_zero] using h)]

/-! ## Claim theorems -/

/-- Claim C1, counterexample: for the identifier set `[1]` with an empty
loaded entity list, the batch leaves the status of `1` at `"Pending"` — not
`"Completed"` or `"Failed"` as the claim requires for every member,
"including when some member of S has no matching entity in the currently
loaded entity list". -/
theorem handleSync_unmatched_left_pending :
    lookupStatus (handleSync (fun _ => true)
        (mkState [] [] [1] [] [] [])).syncProgress 1 = some "Pending" ∧
    ¬(lookupStatus (handleSync (fun _ => true)
        (mkState [] [] [1] [] [] [])).syncProgress 1 = some "Completed" ∨
      lookupStatus (handleSync (fun _ => true)
        (mkState [] [] [1] [] [] [])).syncProgress 1 = some "Failed") := by
  decide

/-- Claim C1 as amended: after a non-empty sync batch the status map has
exactly one entry per selected identifier and no others; an identifier with a
matching entity in the loaded list ends `Completed` or `Failed`, while an
identifier with no matching entity keeps its initial `Pending` status. -/
theorem handleSync_final_statuses (ok : Nat → Bool) (s : AppState)
    (h : s.selectedBookIds ≠ []) :
    (∀ j ∈ s.selectedBookIds,
      (((handleSync ok s).syncProgress.filter (fun p => p.1 == j)).length = 1)) ∧
    (∀ p ∈ (handleSync ok s).syncProgress, p.1 ∈ s.selectedBookIds) ∧
    (∀ j ∈ s.selectedBookIds,
      (s.books.any (fun b => b.id == j) = true →
        (lookupStatus (handleSync ok s).syncProgress j = some "Completed" ∨
         lookupStatus (handleSync ok s).syncProgress j = some "Failed")) ∧
      (s.books.any (fun b => b.id == j) = false →
        lookupStatus (handleSync ok s).syncProgress j = some "Pending")) := by
  have hprog := handleSync_progress_eq ok s h
  have hkeys : statusKeys (handleSync ok s).syncProgress =
      statusKeys (initialStatus s.selectedBookIds "Pending") := by
    rw [hprog]
    exact statusKeys_syncFold s.books ok s.selectedBookIds
      (initialStatus s.selectedBookIds "Pending", 0, 0)
      (fun i hi => (mem_statusKeys_initialStatus s.selectedBookIds "Pending" i).mpr hi)
  refine ⟨?_, ?_, ?_⟩
  · intro j hj
    have hnd : (statusKeys (handleSync ok s).syncProgress).Nodup := by
      rw [hkeys]
      exact nodup_statusKeys_initialStatus s.selectedBookIds "Pending"
    have hmem : j ∈ statusKeys (handleSync ok s).syncProgress := by
      rw [hkeys]
      exact (mem_statusKeys_initialStatus s.selectedBookIds "Pending" j).mpr hj
    exact entry_count_of_nodup _ j hnd hmem
  · intro p hp
    have hmem : p.1 ∈ statusKeys (handleSync ok s).syncProgress :=
      List.mem_map_of_mem (fun q => q.1) hp
    rw [hkeys] at hmem
    exact (mem_statusKeys_initialStatus s.selectedBookIds "Pending" p.1).mp hmem
  · intro j hj
    constructor
    · intro hany
      rw [hprog, lookupStatus_syncFold, if_pos (And.intro hj hany)]
      by_cases hok : ok j = true
      · left
        rw [if_pos hok]
      · right
        rw [if_neg hok]
    · intro hanyf
      rw [hprog, lookupStatus_syncFold]
      have hnc : ¬(j ∈ s.selectedBookIds ∧
          s.books.any (fun b => b.id == j) = true) := by
        intro hc
        rw [hanyf] at hc
        simp at hc
      rw [if_neg hnc]
      have hred : ((initialStatus s.selectedBookIds "Pending",
          (0 : Nat), (0 : Nat)).1) = initialStatus s.selectedBookIds "Pending" := rfl
      rw [hred, lookupStatus_initialStatus, if_pos hj]

/-- Witness for the amended C1 theorem at the identifier set `[1, 2, 3]`,
books `1` and `2` loaded, operation succeeding only for id `1`: one entry
each, id `1` terminal, id `3` (no matching book) pending. -/
theorem handleSync_final_statuses_witness :
    (((mkState [mkBook 1 "A", mkBook 2 "B"] [] [1, 2, 3] [] [] []) :
        AppState).selectedBookIds ≠ []) ∧
    ((handleSync (fun n => n == 1)
        (mkState [mkBook 1 "A", mkBook 2 "B"] [] [1, 2, 3] [] [] [])).syncProgress.filter
        (fun p => p.1 == 2)).length = 1 ∧
    (lookupStatus (handleSync (fun n => n == 1)
        (mkState [mkBook 1 "A", mkBook 2 "B"] [] [1, 2, 3] [] [] [])).syncProgress 1 =
          some "Completed" ∨
     lookupStatus (handleSync (fun n => n == 1)
        (mkState [mkBook 1 "A", mkBook 2 "B"] [] [1, 2, 3] [] [] [])).syncProgress 1 =
          some "Failed") ∧
    lookupStatus (handleSync (fun n => n == 1)
        (mkState [mkBook 1 "A", mkBook 2 "B"] [] [1, 2, 3] [] [] [])).syncProgress 3 =
      some "Pending" := by
  have h := handleSync_final_statuses (fun n => n == 1)
    (mkState [mkBook 1 "A", mkBook 2 "B"] [] [1, 2, 3] [] [] []) (by decide)
  exact ⟨by decide, h.1 2 (by decide), (h.2.2 1 (by decide)).1 (by decide),
    (h.2.2 3 (by decide)).2 (by decide)⟩

/-- Claim C2: in any batch, if the operation fails for `x` and succeeds for
`y ≠ x` (with `y` matching a loaded entity), the final status of `y` is
`Completed` — a per-item failure never blocks or skips other identifiers. -/
theorem handleSync_failure_isolated (ok : Nat → Bool) (s : AppState) (x y : Nat)
    (hx : x ∈ s.selectedBookIds) (hy : y ∈ s.selectedBookIds) (hxy : x ≠ y)
    (hfx : ok x = false) (hfy : ok y = true)
    (hby : s.books.any (fun b => b.id == y) = true) :
    lookupStatus (handleSync ok s).syncProgress y = some "Completed" := by
  have hne : s.selectedBookIds ≠ [] := by
    intro hc
    rw [hc] at hy
    exact absurd hy (List.not_mem_nil y)
  rw [handleSync_progress_eq ok s hne, lookupStatus_syncFold,
    if_pos (And.intro hy hby), if_pos hfy]

/-- Witness for C2: ids `[1, 2]`, operation failing for `1` and succeeding
for `2`; the status of `2` is `Completed`. -/
theorem handleSync_failure_isolated_witness :
    ((fun (n : Nat) => n == 2) 1 = false) ∧
    ((fun (n : Nat) => n == 2) 2 = true) ∧
    lookupStatus (handleSync (fun n => n == 2)
        (mkState [mkBook 1 "A", mkBook 2 "B"] [] [1, 2] [] [] [])).syncProgress 2 =
      some "Completed" :=
  ⟨by decide, by decide,
    handleSync_failure_isolated (fun n => n == 2)
      (mkState [mkBook 1 "A", mkBook 2 "B"] [] [1, 2] [] [] []) 1 2
      (by decide) (by decide) (by decide) (by decide) (by decide) (by decide)⟩

/-- Claim C7: an empty identifier set is rejected before any status-map
mutation: `handleSync` only sets the "select at least one" error banner and
leaves every other field (the status map included) exactly as it was, and the
delete runner returns the state unchanged. -/
theorem emptySelection_rejected (ok : Nat → Bool) (s : AppState)
    (h : s.selectedBookIds = []) (h2 : s.selectedDestinationBookIds = []) :
    handleSync ok s =
      { s with error := some "Please select at least one book to sync" } ∧
    confirmDeleteMultipleBooks ok s = s := by
  constructor
  · unfold handleSync
    rw [if_pos (by rw [h]; decide)]
  · unfold confirmDeleteMultipleBooks
    rw [if_pos (by rw [h2]; decide)]

/-- Witness for C7 at a state with books loaded and stale status maps:
nothing but the error banner changes. -/
theorem emptySelection_rejected_witness :
    handleSync (fun _ => true)
        (mkState [mkBook 1 "A"] [mkBook 2 "B"] [] [] [(5, "Completed")] [(6, "Failed")]) =
      { mkState [mkBook 1 "A"] [mkBook 2 "B"] [] [] [(5, "Completed")] [(6, "Failed")] with
          error := some "Please select at least one book to sync" } ∧
    confirmDeleteMultipleBooks (fun _ => true)
        (mkState [mkBook 1 "A"] [mkBook 2 "B"] [] [] [(5, "Completed")] [(6, "Failed")]) =
      mkState [mkBook 1 "A"] [mkBook 2 "B"] [] [] [(5, "Completed")] [(6, "Failed")] :=
  emptySelection_rejected (fun _ => true)
    (mkState [mkBook 1 "A"] [mkBook 2 "B"] [] [] [(5, "Completed")] [(6, "Failed")])
    rfl rfl

/-- Claim C3, failing input: one destination book (id 1) whose delete fails,
and a book whose delete succeeds after a stale `Failed` entry.  The removal
filter reads the `deleteStatus` captured by the closure — the pre-batch map —
so the book whose delete just failed (status `Failed` in the new map) is
removed anyway, and a book whose delete just succeeded is kept when the stale
map said `Failed`. -/
theorem confirmDelete_removal_uses_stale_status :
    lookupStatus (confirmDeleteMultipleBooks (fun _ => false)
        (mkState [] [mkBook 1 "A"] [] [1] [] [])).deleteStatus 1 = some "Failed" ∧
    (confirmDeleteMultipleBooks (fun _ => false)
        (mkState [] [mkBook 1 "A"] [] [1] [] [])).destinationBooks = [] ∧
    lookupStatus (confirmDeleteMultipleBooks (fun _ => true)
        (mkState [] [mkBook 1 "A"] [] [1] [] [(1, "Failed")])).deleteStatus 1 =
      some "Deleted" ∧
    (confirmDeleteMultipleBooks (fun _ => true)
        (mkState [] [mkBook 1 "A"] [] [1] [] [(1, "Failed")])).destinationBooks =
      [mkBook 1 "A"] := by
  decide

/-- Claim C5, failing input: a book whose status map entry is the terminal
`'Completed'` (exactly as `handleSync` writes it on success) is classified as
"syncing" by `matchesSyncStatus`, because the code compares against the
lowercase literal `'completed'`, which no status writer ever produces;
`'Failed'` is likewise classified as syncing. -/
theorem matchesSyncStatus_terminal_counts_as_syncing :
    matchesSyncStatus "syncing" [] [(1, "Completed")] (mkBook 1 "A") = true ∧
    matchesSyncStatus "syncing" [] [(1, "Failed")] (mkBook 1 "A") = true := by
  decide

/-- Claim C4, counterexample: a source book that is in the destination and
has an active status matches the filter's "syncing" predicate but is not
counted by `syncingCount`; a book with status `'Failed'` not in the
destination is counted by `notSyncedCount` but rejected by the filter's
"not-synced" predicate. -/
theorem counts_differ_from_filter_predicates :
    syncingCount [mkBook 1 "A"] [mkBook 2 "A"] [(1, "Syncing...")] = 0 ∧
    (([mkBook 1 "A"] : List Book).filter (fun b =>
      matchesSyncStatus "syncing" [mkBook 2 "A"] [(1, "Syncing...")] b)).length = 1 ∧
    notSyncedCount [mkBook 1 "A"] [] [(1, "Failed")] = 1 ∧
    (([mkBook 1 "A"] : List Book).filter (fun b =>
      matchesSyncStatus "not-synced" [] [(1, "Failed")] b)).length = 0 := by
  decide

theorem matchesSyncStatus_in_destination (dest : List Book) (prog : StatusMap)
    (b : Book) :
    matchesSyncStatus "in-destination" dest prog b = isInDestination dest b := by
  unfold matchesSyncStatus
  cases hb : isInDestination dest b with
  | true => simp [hb]
  | false => simp [hb]

theorem matchesSyncStatus_syncing (dest : List Book) (prog : StatusMap)
    (b : Book) :
    matchesSyncStatus "syncing" dest prog b = isSyncing prog b := by
  unfold matchesSyncStatus
  cases hb : isSyncing prog b with
  | true => simp [hb]
  | false => simp [hb]

theorem matchesSyncStatus_not_synced (dest : List Book) (prog : StatusMap)
    (b : Book) :
    matchesSyncStatus "not-synced" dest prog b =
      (!isInDestination dest b && !isSyncing prog b) := by
  unfold matchesSyncStatus
  cases hb : isInDestination dest b with
  | true => simp [hb]
  | false =>
    cases hs : isSyncing prog b with
    | true => simp [hb, hs]
    | false => simp [hb, hs]

/-- Claim C4 as amended: the in-destination count uses exactly the filter's
in-destination predicate; the syncing count counts the books satisfying the
filter's syncing predicate that are additionally not in the destination; the
not-synced count pairs the filter's in-destination predicate with its own
status test — entry absent/empty or exactly `'Failed'` — instead of the
filter's not-synced predicate. -/
theorem counts_vs_filter_predicates (books destinationBooks : List Book)
    (syncProgress : StatusMap) :
    inDestinationCount books destinationBooks =
      (books.filter (fun b =>
        matchesSyncStatus "in-destination" destinationBooks syncProgress b)).length ∧
    syncingCount books destinationBooks syncProgress =
      (books.filter (fun b =>
        matchesSyncStatus "syncing" destinationBooks syncProgress b
        && !(matchesSyncStatus "in-destination" destinationBooks syncProgress b))).length ∧
    notSyncedCount books destinationBooks syncProgress =
      (books.filter (fun b =>
        !(matchesSyncStatus "in-destination" destinationBooks syncProgress b)
        && (match lookupStatus syncProgress b.id with
            | some s => !truthy s || s == "Failed"
            | none => true))).length := by
  refine ⟨?_, ?_, ?_⟩
  · unfold inDestinationCount
    have he : ∀ b ∈ books,
        (destinationBooks.any (fun destBook => destBook.name == b.name)) =
          matchesSyncStatus "in-destination" destinationBooks syncProgress b := by
      intro b _
      rw [matchesSyncStatus_in_destination]
      rfl
    rw [List.filter_congr he]
  · unfold syncingCount
    have he : ∀ b ∈ books,
        ((match lookupStatus syncProgress b.id with
          | some s => truthy s && s != "completed"
          | none => false)
         && !(destinationBooks.any (fun destBook => destBook.name == b.name))) =
          (matchesSyncStatus "syncing" destinationBooks syncProgress b
           && !(matchesSyncStatus "in-destination" destinationBooks syncProgress b)) := by
      intro b _
      rw [matchesSyncStatus_syncing, matchesSyncStatus_in_destination]
      rfl
    rw [List.filter_congr he]
  · unfold notSyncedCount
    have he : ∀ b ∈ books,
        (!(destinationBooks.any (fun destBook => destBook.name == b.name))
         && (match lookupStatus syncProgress b.id with
             | some s => !truthy s || s == "Failed"
             | none => true)) =
          (!(matchesSyncStatus "in-destination" destinationBooks syncProgress b)
           && (match lookupStatus syncProgress b.id with
               | some s => !truthy s || s == "Failed"
               | none => true)) := by
      intro b _
      rw [matchesSyncStatus_in_destination]
      rfl
    rw [List.filter_congr he]

theorem ceil_quotient_eq (n : Nat) :
    Nat.ceil ((n : ℚ) / 15) = (n + 15 - 1) / 15 := by
  rw [← Nat.ceilDiv_eq_add_pred_div]
  apply le_antisymm
  · rw [Nat.ceil_le, div_le_iff₀ (by norm_num : (0 : ℚ) < 15)]
    have h : n ≤ 15 * (n ⌈/⌉ 15) := by
      have := le_smul_ceilDiv (α := ℕ) (β := ℕ) (by norm_num : (0 : ℕ) < 15) (b := n)
      simpa [smul_eq_mul] using this
    calc (n : ℚ) ≤ ((15 * (n ⌈/⌉ 15) : ℕ) : ℚ) := by exact_mod_cast h
    _ = (↑(n ⌈/⌉ 15) : ℚ) * 15 := by push_cast; ring
  · rw [ceilDiv_le_iff_le_smul (by norm_num : (0 : ℕ) < 15)]
    have h := Nat.le_ceil ((n : ℚ) / 15)
    have h2 : (n : ℚ) ≤ 15 * (Nat.ceil ((n : ℚ) / 15) : ℚ) := by
      rw [div_le_iff₀ (by norm_num : (0 : ℚ) < 15)] at h
      linarith
    have h3 : n ≤ 15 * Nat.ceil ((n : ℚ) / 15) := by exact_mod_cast h2
    simpa [smul_eq_mul] using h3

/-- Claim C9: the page count is the ceiling of the filtered length over 15
with a minimum of 1; page `p` holds exactly the filtered entities at offsets
`(p-1)*15` through `p*15-1`; and for 16 entities there are 2 pages with page
2 holding exactly 1 entity. -/
theorem pagination_pages (l : List Book) (p i : Nat) :
    totalPages l.length = max 1 (Nat.ceil ((l.length : ℚ) / 15)) ∧
    (currentBooks l p)[i]? =
      (if i < ITEMS_PER_PAGE then l[(p - 1) * ITEMS_PER_PAGE + i]? else none) ∧
    (l.length = 16 → totalPages l.length = 2 ∧ (currentBooks l 2).length = 1) := by
  refine ⟨?_, ?_, ?_⟩
  · rw [ceil_quotient_eq]
    rfl
  · unfold currentBooks
    rw [List.getElem?_take, List.getElem?_drop]
  · intro hlen
    constructor
    · rw [hlen]
      rfl
    · unfold currentBooks
      rw [List.length_take, List.length_drop, hlen]
      rfl

/-- Witness for C9 on a concrete list of sixteen books: two pages, one book
on page 2. -/
theorem pagination_pages_witness :
    sixteenBooks.length = 16 ∧ totalPages sixteenBooks.length = 2 ∧
    (currentBooks sixteenBooks 2).length = 1 := by
  have h16 : sixteenBooks.length = 16 := by
    simp [sixteenBooks]
  have h := pagination_pages sixteenBooks 2 0
  exact ⟨h16, (h.2.2 h16).1, (h.2.2 h16).2⟩

/-- Claim C8, counterexample: a response body whose `message` field is
present but empty.  The code's `||` chain treats the empty string as falsy
and surfaces the `error` field, whereas the claim's literal "message field if
present" reading would surface the empty message. -/
theorem handleError_skips_empty_message_field :
    SpringBootApi.handleError
        (.response 500 ⟨some "", some "E", none⟩ "timeout of 300000ms exceeded") =
      "API Error: " ++ toString 500 ++ " - E" ∧
    SpringBootApi.specPresentFallback ⟨some "", some "E", none⟩
        "timeout of 300000ms exceeded" = "" ∧
    SpringBootApi.handleError
        (.response 500 ⟨some "", some "E", none⟩ "timeout of 300000ms exceeded") ≠
      "API Error: " ++ toString 500 ++ " - " ++
        SpringBootApi.specPresentFallback ⟨some "", some "E", none⟩
          "timeout of 300000ms exceeded" := by
  refine ⟨rfl, rfl, ?_⟩
  decide

/-- Claim C8 as amended: every axios transport error surfaces as one of the
ApiError, NoResponse, or RequestError shapes; in the ApiError case the
message is the body's `message` field if present and non-empty, otherwise its
`error` field if present and non-empty, otherwise its `status` field if
present and non-empty, otherwise the generic transport message. -/
theorem handleError_normalization (e : SpringBootApi.AxiosFailure) :
    ((∃ m, SpringBootApi.handleError e = "API Error: " ++ m) ∨
      SpringBootApi.handleError e = "No response received from server" ∨
      (∃ m, SpringBootApi.handleError e = "Request Error: " ++ m)) ∧
    (∀ st d msg, e = .response st d msg →
      ((∀ m, d.message = some m → m ≠ "" →
          SpringBootApi.handleError e =
            "API Error: " ++ toString st ++ " - " ++ m) ∧
       ((d.message = none ∨ d.message = some "") →
        ∀ m, d.error = some m → m ≠ "" →
          SpringBootApi.handleError e =
            "API Error: " ++ toString st ++ " - " ++ m) ∧
       ((d.message = none ∨ d.message = some "") →
        (d.error = none ∨ d.error = some "") →
        ∀ m, d.status = some m → m ≠ "" →
          SpringBootApi.handleError e =
            "API Error: " ++ toString st ++ " - " ++ m) ∧
       ((d.message = none ∨ d.message = some "") →
        (d.error = none ∨ d.error = some "") →
        (d.status = none ∨ d.status = some "") →
          SpringBootApi.handleError e =
            "API Error: " ++ toString st ++ " - " ++ msg))) := by
  constructor
  · cases e with
    | response st d msg =>
      left
      exact ⟨toString st ++ " - " ++
        SpringBootApi.jsOrElse d.message
          (SpringBootApi.jsOrElse d.error (SpringBootApi.jsOrElse d.status msg)),
        by simp [SpringBootApi.handleError, String.append_assoc]⟩
    | noResponse msg =>
      right
      left
      rfl
    | requestSetup msg =>
      right
      right
      exact ⟨msg, rfl⟩
  · intro st d msg he
    subst he
    refine ⟨?_, ?_, ?_, ?_⟩
    · intro m hm hne
      simp [SpringBootApi.handleError, SpringBootApi.jsOrElse, hm, truthy, hne]
    · intro hmsg m hm hne
      rcases hmsg with h0 | h0 <;>
        simp [SpringBootApi.handleError, SpringBootApi.jsOrElse, h0, hm, truthy, hne]
    · intro hmsg herr m hm hne
      rcases hmsg with h0 | h0 <;> rcases herr with h1 | h1 <;>
        simp [SpringBootApi.handleError, SpringBootApi.jsOrElse, h0, h1, hm,
          truthy, hne]
    · intro hmsg herr hst
      rcases hmsg with h0 | h0 <;> rcases herr with h1 | h1 <;>
        rcases hst with h2 | h2 <;>
        simp [SpringBootApi.handleError, SpringBootApi.jsOrElse, h0, h1, h2, truthy]

/-- Witness for the amended C8 theorem: a body with a non-empty message
field surfaces that message behind the status prefix. -/
theorem handleError_normalization_witness :
    SpringBootApi.handleError (.response 500 ⟨some "boom", none, none⟩ "net") =
      "API Error: " ++ toString 500 ++ " - " ++ "boom" := by
  have h := handleError_normalization (.response 500 ⟨some "boom", none, none⟩ "net")
  exact (h.2 500 ⟨some "boom", none, none⟩ "net" rfl).1 "boom" rfl (by decide)

/-- Claim C10: `getConfig` never throws — for any storage content it returns
the parsed configuration or null: null when nothing is stored, null when the
stored string fails to parse, and any non-null result is exactly the parse of
the stored string.  (Totality of the embedded function is the "never throws"
part: the `catch` turns every parse failure into null.) -/
theorem getConfig_never_throws (stored : Option String)
    (parse : String → Except String BookStackConfigDTO) :
    (stored = none → SpringBootApi.getConfig stored parse = none) ∧
    (∀ s msg, stored = some s → parse s = .error msg →
      SpringBootApi.getConfig stored parse = none) ∧
    (∀ s cfg, stored = some s → truthy s = true → parse s = .ok cfg →
      SpringBootApi.getConfig stored parse = some cfg) ∧
    (∀ cfg, SpringBootApi.getConfig stored parse = some cfg →
      ∃ s, stored = some s ∧ parse s = .ok cfg) := by
  refine ⟨?_, ?_, ?_, ?_⟩
  · intro h
    subst h
    rfl
  · intro s msg h hp
    subst h
    by_cases ht : truthy s = true
    · simp [SpringBootApi.getConfig, ht, hp]
    · simp [SpringBootApi.getConfig, Bool.eq_false_iff.mpr ht]
  · intro s cfg h ht hp
    subst h
    simp [SpringBootApi.getConfig, ht, hp]
  · intro cfg h
    cases hst : stored with
    | none =>
      subst hst
      simp [SpringBootApi.getConfig] at h
    | some s =>
      subst hst
      refine ⟨s, rfl, ?_⟩
      by_cases ht : truthy s = true
      · cases hp : parse s with
        | ok c =>
          simp [SpringBootApi.getConfig, ht, hp] at h
          rw [h]
        | error msg =>
          simp [SpringBootApi.getConfig, ht, hp] at h
      · simp [SpringBootApi.getConfig, Bool.eq_false_iff.mpr ht] at h

/-- Witness for C10: a parse oracle that accepts exactly one string —
accepted content parses, rejected content and absent content give null. -/
theorem getConfig_never_throws_witness :
    SpringBootApi.getConfig (some "cfg") (parseOnly "cfg" fullConfig) =
      some fullConfig ∧
    SpringBootApi.getConfig (some "bad") (parseOnly "cfg" fullConfig) = none ∧
    SpringBootApi.getConfig none (parseOnly "cfg" fullConfig) = none := by
  have h1 := getConfig_never_throws (some "cfg") (parseOnly "cfg" fullConfig)
  have h2 := getConfig_never_throws (some "bad") (parseOnly "cfg" fullConfig)
  have h3 := getConfig_never_throws none (parseOnly "cfg" fullConfig)
  exact ⟨h1.2.2.1 "cfg" fullConfig rfl (by decide) rfl,
    h2.2.1 "bad" "Unexpected token" rfl rfl, h3.1 rfl⟩

/-- Claim C6 (gateway bulk-destroy, modelled from the spec): with a stored
configuration whose destination credentials are complete, the destroy call
issues the deletion request carrying the destination headers and succeeds;
with no stored configuration, or with any destination field blank, it fails
before any request is issued. -/
theorem destroy_requires_destination_credentials (c : BookStackConfigDTO)
    (h1 : c.destinationBaseUrl ≠ "") (h2 : c.destinationTokenSecret ≠ "")
    (h3 : c.destinationTokenId ≠ "") :
    SpringBootApi.destroy (some c) =
      Except.ok ⟨c.destinationBaseUrl, c.destinationTokenSecret,
        c.destinationTokenId⟩ ∧
    SpringBootApi.destroy none = Except.error .configurationMissing ∧
    (∀ c', (c'.destinationBaseUrl = "" ∨ c'.destinationTokenSecret = "" ∨
        c'.destinationTokenId = "") →
      SpringBootApi.destroy (some c') =
        Except.error .destinationCredentialsIncomplete) := by
  refine ⟨?_, rfl, ?_⟩
  · simp [SpringBootApi.destroy, truthy, h1, h2, h3]
  · intro c' hbl
    rcases hbl with h0 | h0 | h0 <;>
      simp [SpringBootApi.destroy, truthy, h0]

/-- Witness for C6 at a fully populated configuration. -/
theorem destroy_requires_destination_credentials_witness :
    fullConfig.destinationBaseUrl ≠ "" ∧
    SpringBootApi.destroy (some fullConfig) =
      Except.ok ⟨"http://dst", "ds", "did"⟩ ∧
    SpringBootApi.destroy (some blankConfig) =
      Except.error .destinationCredentialsIncomplete := by
  have h := destroy_requires_destination_credentials fullConfig
    (by decide) (by decide) (by decide)
  exact ⟨by decide, h.1, h.2.2 blankConfig (Or.inl rfl)⟩

end BookStackSync
